import Mathlib

/-!
Shallow embedding of `src/services/order-engine/models/money_management.ts`,
a grid-trading P&L type schema.  TypeScript `number` fields are modelled as
exact rationals (`ℚ`); `Date` timestamps are modelled as integers (epoch
milliseconds); string-literal union types become inductives.  The file
declares only data shapes, function types and a constants table; the
calculator implementations live outside this module, so where a claim needs
them they are modelled from the spec (each such definition says so in its
doc comment).
-/

/-- Embeds TS `interface Price { value: number; timestamp: Date }`. -/
structure Price where
  value : ℚ
  timestamp : ℤ
deriving DecidableEq

/-- Embeds TS `interface Volume { amount: number; currency: string }`. -/
structure Volume where
  amount : ℚ
  currency : String
deriving DecidableEq

/-- Embeds the TS string-literal union `'BUY' | 'SELL'` used by `Trade.type`. -/
inductive TradeType where
  | buy
  | sell
deriving DecidableEq

/-- Embeds TS `interface Trade` (fields `id`, `type`, `price`, `volume`,
`fee`, `timestamp`). -/
structure Trade where
  id : String
  type : TradeType
  price : Price
  volume : Volume
  fee : ℚ
  timestamp : ℤ
deriving DecidableEq

/-- Embeds the TS string-literal union `'LONG' | 'SHORT'` used by
`Position.side`. -/
inductive PositionSide where
  | long
  | short
deriving DecidableEq

/-- Embeds TS `interface Position`. -/
structure Position where
  symbol : String
  side : PositionSide
  size : ℚ
  entryPrice : ℚ
  currentPrice : ℚ
  unrealizedPnl : ℚ
  timestamp : ℤ
deriving DecidableEq

/-- Embeds the anonymous object type of `GridConfig.priceRange`. -/
structure PriceRange where
  upper : ℚ
  lower : ℚ
deriving DecidableEq

/-- Embeds TS `interface GridConfig`.  The TS interface carries no
validation: every structural value inhabits it. -/
structure GridConfig where
  symbol : String
  priceRange : PriceRange
  gridLevels : ℚ
  gridSpacing : ℚ
  baseOrderSize : ℚ
  maxPositions : ℚ
deriving DecidableEq

/-- Embeds TS `interface TradingCosts`. -/
structure TradingCosts where
  buyFees : ℚ
  sellFees : ℚ
  spreadCost : ℚ
  slippageCost : ℚ
  fundingCost : ℚ
deriving DecidableEq

/-- Embeds TS `interface InfrastructureCosts`. -/
structure InfrastructureCosts where
  vpsCost : ℚ
  apiCost : ℚ
  softwareLicenses : ℚ
  networkCosts : ℚ
deriving DecidableEq

/-- Embeds TS `interface OpportunityCosts`. -/
structure OpportunityCosts where
  riskFreeRate : ℚ
  alternativeInvestmentReturn : ℚ
  timeValue : ℚ
deriving DecidableEq

/-- Embeds TS `interface RiskCosts`. -/
structure RiskCosts where
  drawdownImpact : ℚ
  volatilityPenalty : ℚ
  correlationRisk : ℚ
  liquidityRisk : ℚ
deriving DecidableEq

/-- Embeds TS `interface HiddenCosts`. -/
structure HiddenCosts where
  rebalancingCost : ℚ
  gapRisk : ℚ
  liquidityCost : ℚ
  taxImplications : ℚ
deriving DecidableEq

/-- Embeds TS `interface GridProfit`. -/
structure GridProfit where
  realizedProfit : ℚ
  unrealizedPnl : ℚ
  totalTrades : ℚ
  successfulCycles : ℚ
  timestamp : ℤ
deriving DecidableEq

/-- Embeds TS `interface TotalCosts`: the five cost sub-records plus an
independent `totalAmount` field.  Nothing in the type ties `totalAmount`
to the components. -/
structure TotalCosts where
  trading : TradingCosts
  infrastructure : InfrastructureCosts
  opportunity : OpportunityCosts
  risk : RiskCosts
  hidden : HiddenCosts
  totalAmount : ℚ
deriving DecidableEq

/-- Embeds TS `interface ReturnMetrics`. -/
structure ReturnMetrics where
  sharpeRatio : ℚ
  sortinoRatio : ℚ
  calmarRatio : ℚ
  annualReturn : ℚ
  volatility : ℚ
deriving DecidableEq

/-- Embeds TS `interface RiskMetrics`. -/
structure RiskMetrics where
  maximumDrawdown : ℚ
  valueAtRisk : ℚ
  winRate : ℚ
  averageWinLossRatio : ℚ
  recoveryTime : ℚ
deriving DecidableEq

/-- Embeds TS `interface EfficiencyMetrics`. -/
structure EfficiencyMetrics where
  profitFactor : ℚ
  recoveryFactor : ℚ
  tradesPerDay : ℚ
  averageProfitPerTrade : ℚ
  gridEfficiency : ℚ
deriving DecidableEq

/-- Embeds TS `interface GridMetrics`. -/
structure GridMetrics where
  gridEfficiency : ℚ
  capitalUtilization : ℚ
  cycleCompletionRate : ℚ
  averageGridSpacing : ℚ
  maxCapitalAtRisk : ℚ
deriving DecidableEq

/-- Embeds TS `interface PnLCalculation`. -/
structure PnLCalculation where
  gridProfit : GridProfit
  totalCosts : TotalCosts
  netProfit : ℚ
  riskAdjustedReturn : ℚ
  finalPnl : ℚ
  calculationDate : ℤ
deriving DecidableEq

/-- Embeds the anonymous TS time-window type `{ start: Date; end: Date }`. -/
structure Timeframe where
  start : ℤ
  «end» : ℤ
deriving DecidableEq

/-- Embeds TS `interface PerformanceReport`. -/
structure PerformanceReport where
  pnl : PnLCalculation
  returnMetrics : ReturnMetrics
  riskMetrics : RiskMetrics
  efficiencyMetrics : EfficiencyMetrics
  gridMetrics : GridMetrics
  period : Timeframe
deriving DecidableEq

/-- Embeds the data fields of TS `interface GridTradingStrategy` (its
methods are contracts with no implementation in the module). -/
structure GridTradingStrategy where
  config : GridConfig
  currentPositions : List Position
  tradeHistory : List Trade
  performance : PerformanceReport
deriving DecidableEq

/-- Shape of the TS `CALCULATION_CONSTANTS` object literal. -/
structure CalculationConstants where
  DAYS_PER_YEAR : ℚ
  TRADING_DAYS_PER_YEAR : ℚ
  HOURS_PER_DAY : ℚ
  MINUTES_PER_HOUR : ℚ
  SECONDS_PER_MINUTE : ℚ
  DEFAULT_RISK_FREE_RATE : ℚ
  DEFAULT_MAKER_FEE : ℚ
  DEFAULT_TAKER_FEE : ℚ
  DEFAULT_VAR_CONFIDENCE : ℚ
  DEFAULT_MAX_DRAWDOWN_LIMIT : ℚ
deriving DecidableEq

/-- Embeds the TS constant object `CALCULATION_CONSTANTS`, value for value
(decimal literals are exact in `ℚ`). -/
def CALCULATION_CONSTANTS : CalculationConstants where
  DAYS_PER_YEAR := 365
  TRADING_DAYS_PER_YEAR := 252
  HOURS_PER_DAY := 24
  MINUTES_PER_HOUR := 60
  SECONDS_PER_MINUTE := 60
  DEFAULT_RISK_FREE_RATE := 2 / 100
  DEFAULT_MAKER_FEE := 1 / 1000
  DEFAULT_TAKER_FEE := 15 / 10000
  DEFAULT_VAR_CONFIDENCE := 95 / 100
  DEFAULT_MAX_DRAWDOWN_LIMIT := 2 / 10

/-- Per-record component sum for `TradingCosts` (all five numeric fields). -/
def TradingCosts.sum (c : TradingCosts) : ℚ :=
  c.buyFees + c.sellFees + c.spreadCost + c.slippageCost + c.fundingCost

/-- Per-record component sum for `InfrastructureCosts`. -/
def InfrastructureCosts.sum (c : InfrastructureCosts) : ℚ :=
  c.vpsCost + c.apiCost + c.softwareLicenses + c.networkCosts

/-- Per-record component sum for `OpportunityCosts`. -/
def OpportunityCosts.sum (c : OpportunityCosts) : ℚ :=
  c.riskFreeRate + c.alternativeInvestmentReturn + c.timeValue

/-- Per-record component sum for `RiskCosts`. -/
def RiskCosts.sum (c : RiskCosts) : ℚ :=
  c.drawdownImpact + c.volatilityPenalty + c.correlationRisk + c.liquidityRisk

/-- Per-record component sum for `HiddenCosts`. -/
def HiddenCosts.sum (c : HiddenCosts) : ℚ :=
  c.rebalancingCost + c.gapRisk + c.liquidityCost + c.taxImplications

/-- Sum of all numeric components of the five cost sub-records of a
`TotalCosts` value. -/
def TotalCosts.componentsSum (tc : TotalCosts) : ℚ :=
  tc.trading.sum + tc.infrastructure.sum + tc.opportunity.sum +
    tc.risk.sum + tc.hidden.sum

/-- Modelled from the spec: the module declares no constructor for
`TotalCosts`; §3 states the invariant "totalAmount = sum of all
sub-category sums", so this constructor computes `totalAmount` from the
five sub-records instead of accepting it as a free field. -/
def mkTotalCosts (t : TradingCosts) (i : InfrastructureCosts)
    (o : OpportunityCosts) (r : RiskCosts) (h : HiddenCosts) : TotalCosts :=
  { trading := t, infrastructure := i, opportunity := o, risk := r,
    hidden := h,
    totalAmount := t.sum + i.sum + o.sum + r.sum + h.sum }

/-- Typed error kinds the spec (§7) assigns to the calculator contracts. -/
inductive CalcError where
  | invalidWindow
  | emptyInput
  | insufficientData
deriving DecidableEq

/-- A trade lies inside the half-open-free window `[start, end]`. -/
def tradeInWindow (tf : Timeframe) (t : Trade) : Bool :=
  decide (tf.start ≤ t.timestamp) && decide (t.timestamp ≤ tf.«end»)

/-- Modelled from the spec (§4.1): the signed proceeds of one trade —
SELL proceeds minus fee; BUY cost (negated) minus fee. -/
def signedProceeds (t : Trade) : ℚ :=
  match t.type with
  | .sell => t.price.value * t.volume.amount - t.fee
  | .buy => -(t.price.value * t.volume.amount) - t.fee

/-- Modelled from the spec (§4.1): realized profit is the sum of signed
trade proceeds over the trades inside the window. -/
def realizedProfitOf (trades : List Trade) (tf : Timeframe) : ℚ :=
  ((trades.filter (tradeInWindow tf)).map signedProceeds).sum

/-- Numeric sign of a position side: LONG ↦ 1, SHORT ↦ −1. -/
def sideSign : PositionSide → ℚ
  | .long => 1
  | .short => -1

/-- Modelled from the spec (§4.1): mark-to-market P&L of one position,
(currentPrice − entryPrice) × size × sign(side). -/
def positionUnrealized (p : Position) : ℚ :=
  (p.currentPrice - p.entryPrice) * p.size * sideSign p.side

/-- Modelled from the spec (§4.1): unrealized P&L is the sum over the
current positions. -/
def unrealizedPnlOf (positions : List Position) : ℚ :=
  (positions.map positionUnrealized).sum

/-- Modelled from the spec: the module declares only the function type
`PnLCalculator`; the implementation is absent from the source.  This is
the calculator of §4.1: fails with InvalidWindow when end < start, with
EmptyInput when no trades and no positions are supplied, and otherwise
returns the PnLCalculation built from realized/unrealized P&L and the
supplied cost snapshot.  The risk-adjustment policy is external to the
schema (§4.1, §9), so `riskAdjustedReturn` is 0 and `finalPnl` equals
`netProfit`; cycle counting is likewise unspecified, so
`successfulCycles` is 0. -/
def calculatePnL (trades : List Trade) (positions : List Position)
    (config : GridConfig) (costs : TotalCosts) (tf : Timeframe) :
    Except CalcError PnLCalculation :=
  if tf.«end» < tf.start then .error .invalidWindow
  else if trades.isEmpty && positions.isEmpty then .error .emptyInput
  else .ok {
    gridProfit := {
      realizedProfit := realizedProfitOf trades tf
      unrealizedPnl := unrealizedPnlOf positions
      totalTrades := ((trades.filter (tradeInWindow tf)).length : ℚ)
      successfulCycles := 0
      timestamp := tf.«end» }
    totalCosts := costs
    netProfit := realizedProfitOf trades tf + unrealizedPnlOf positions
      - costs.totalAmount
    riskAdjustedReturn := 0
    finalPnl := realizedProfitOf trades tf + unrealizedPnlOf positions
      - costs.totalAmount
    calculationDate := tf.«end» }

/-- Equity curve implied by a fractional return series: cumulative
products of (1 + r), starting from 1. -/
def equityCurve (returns : List ℚ) : List ℚ :=
  returns.scanl (fun e r => e * (1 + r)) 1

/-- Running maximum-drawdown accumulator over an equity curve: tracks the
running peak and the worst relative peak-to-trough decline seen so far. -/
def maxDrawdownAux : List ℚ → ℚ → ℚ → ℚ
  | [], _, dd => dd
  | e :: es, peak, dd =>
      maxDrawdownAux es (max peak e) (max dd ((max peak e - e) / max peak e))

/-- Modelled from the spec (§4.2): maximum peak-to-trough decline over the
return series, measured on the implied equity curve. -/
def maximumDrawdownOf (returns : List ℚ) : ℚ :=
  maxDrawdownAux (equityCurve returns) 0 0

/-- Modelled from the spec (§4.2): value at risk at the given confidence
level — the negated return at the (1 − confidence) percentile of the
sorted return series. -/
def valueAtRiskOf (returns : List ℚ) (confidence : ℚ) : ℚ :=
  -(((returns.mergeSort (fun a b => decide (a ≤ b))).getD
      ((1 - confidence) * (returns.length : ℚ)).floor.toNat 0))

/-- Modelled from the spec (§4.2): fraction of positive-return periods. -/
def winRateOf (returns : List ℚ) : ℚ :=
  ((returns.filter (fun r => decide (0 < r))).length : ℚ)
    / (returns.length : ℚ)

/-- Modelled from the spec (§4.2): mean positive return magnitude divided
by mean negative return magnitude (0 when a denominator is empty, by the
division-by-zero convention of `ℚ`). -/
def averageWinLossRatioOf (returns : List ℚ) : ℚ :=
  ((returns.filter (fun r => decide (0 < r))).sum
      / ((returns.filter (fun r => decide (0 < r))).length : ℚ))
    / (((returns.filter (fun r => decide (r < 0))).map (fun r => -r)).sum
      / ((returns.filter (fun r => decide (r < 0))).length : ℚ))

/-- Index of the global trough (first minimum) of an equity curve. -/
def troughIndex (e : List ℚ) : ℕ :=
  (e.foldl
    (fun best x =>
      if x < best.2.1 then (best.2.2, x, best.2.2 + 1)
      else (best.1, best.2.1, best.2.2 + 1))
    ((0 : ℕ), e.headD 0, (0 : ℕ))).1

/-- Modelled from the spec (§4.2): periods from the trough of the equity
curve back to the prior peak; the full remaining length when the curve
never recovers. -/
def recoveryTimeOf (returns : List ℚ) : ℚ :=
  match ((equityCurve returns).drop (troughIndex (equityCurve returns) + 1)).findIdx?
      (fun x =>
        decide ((((equityCurve returns).take
          (troughIndex (equityCurve returns) + 1)).foldl max 0) ≤ x)) with
  | some j => (j : ℚ) + 1
  | none => (((equityCurve returns).drop
      (troughIndex (equityCurve returns) + 1)).length : ℚ)

/-- Modelled from the spec: the module declares only the function type
`RiskCalculator`; the implementation is absent from the source.  This is
the calculator of §4.2: it fails with InsufficientData on an empty return
series and otherwise computes the five risk metrics. -/
def calcRiskMetrics (returns : List ℚ) (riskFreeRate : ℚ) :
    Except CalcError RiskMetrics :=
  if returns.isEmpty then .error .insufficientData
  else .ok {
    maximumDrawdown := maximumDrawdownOf returns
    valueAtRisk := valueAtRiskOf returns
      CALCULATION_CONSTANTS.DEFAULT_VAR_CONFIDENCE
    winRate := winRateOf returns
    averageWinLossRatio := averageWinLossRatioOf returns
    recoveryTime := recoveryTimeOf returns }

/-- Embeds the TS mapped type `Partial<GridConfig>`: every field optional. -/
structure PartialGridConfig where
  symbol : Option String := none
  priceRange : Option PriceRange := none
  gridLevels : Option ℚ := none
  gridSpacing : Option ℚ := none
  baseOrderSize : Option ℚ := none
  maxPositions : Option ℚ := none
deriving DecidableEq

/-- Modelled from the spec (§4.4, §9): the merge performed by
`updateGrid(partial)` — each provided field overrides the current value,
each absent field is left unchanged.  The method body is absent from the
source (the interface declares only its signature). -/
def mergeGridConfig (c : GridConfig) (p : PartialGridConfig) : GridConfig where
  symbol := match p.symbol with | some v => v | none => c.symbol
  priceRange := match p.priceRange with | some v => v | none => c.priceRange
  gridLevels := match p.gridLevels with | some v => v | none => c.gridLevels
  gridSpacing := match p.gridSpacing with | some v => v | none => c.gridSpacing
  baseOrderSize :=
    match p.baseOrderSize with | some v => v | none => c.baseOrderSize
  maxPositions :=
    match p.maxPositions with | some v => v | none => c.maxPositions

/-- Modelled from the spec (§4.4): `updateGrid` replaces the strategy's
configuration by the merge and touches nothing else (TS mutates in place;
the embedding passes the strategy state explicitly). -/
def GridTradingStrategy.updateGrid (s : GridTradingStrategy)
    (newConfig : PartialGridConfig) : GridTradingStrategy :=
  { s with config := mergeGridConfig s.config newConfig }

/-- Modelled from the spec: the `getTotalCosts()` accessor has no body in
the source.  Modelled as the fee-derived trading costs of the trade
history (buy fees and sell fees summed per side), the opportunity cost
seeded with the default risk-free rate, the remaining categories zero,
and the total computed from the components per the §3 invariant. -/
def GridTradingStrategy.getTotalCosts (s : GridTradingStrategy) : TotalCosts :=
  mkTotalCosts
    { buyFees := ((s.tradeHistory.filter
          (fun t => decide (t.type = TradeType.buy))).map Trade.fee).sum
      sellFees := ((s.tradeHistory.filter
          (fun t => decide (t.type = TradeType.sell))).map Trade.fee).sum
      spreadCost := 0, slippageCost := 0, fundingCost := 0 }
    { vpsCost := 0, apiCost := 0, softwareLicenses := 0, networkCosts := 0 }
    { riskFreeRate := CALCULATION_CONSTANTS.DEFAULT_RISK_FREE_RATE
      alternativeInvestmentReturn := 0, timeValue := 0 }
    { drawdownImpact := 0, volatilityPenalty := 0, correlationRisk := 0
      liquidityRisk := 0 }
    { rebalancingCost := 0, gapRisk := 0, liquidityCost := 0
      taxImplications := 0 }

/-- The window spanning a trade history: from the earliest to the latest
trade timestamp (degenerate `[0, 0]` window when the history is empty). -/
def historyWindow (trades : List Trade) : Timeframe where
  start := (trades.map Trade.timestamp).foldl min 0
  «end» := (trades.map Trade.timestamp).foldl max 0

/-- The §4.1 calculator under a name usable inside the
`GridTradingStrategy` namespace. -/
def applyPnLCalculator (trades : List Trade) (positions : List Position)
    (config : GridConfig) (costs : TotalCosts) (tf : Timeframe) :
    Except CalcError PnLCalculation :=
  calculatePnL trades positions config costs tf

/-- Modelled from the spec (§4.4, §5): the zero-argument `calculatePnL()`
method, a pure synchronous computation over the strategy's own config,
positions and trade history — the P&L calculator of §4.1 applied to the
strategy's data over the window spanning its trade history. -/
def GridTradingStrategy.calculatePnL (s : GridTradingStrategy) :
    Except CalcError PnLCalculation :=
  applyPnLCalculator s.tradeHistory s.currentPositions s.config
    s.getTotalCosts (historyWindow s.tradeHistory)

/-- The BUY trade of the worked example in §8: 100 units at $10, fee 0.1. -/
def exampleBuyTrade : Trade where
  id := "t1"
  type := .buy
  price := { value := 10, timestamp := 1 }
  volume := { amount := 100, currency := "USD" }
  fee := 1 / 10
  timestamp := 1

/-- The SELL trade of the worked example in §8: 100 units at $12, fee 0.1. -/
def exampleSellTrade : Trade where
  id := "t2"
  type := .sell
  price := { value := 12, timestamp := 2 }
  volume := { amount := 100, currency := "USD" }
  fee := 1 / 10
  timestamp := 2

/-- The trade list of the worked example in §8. -/
def exampleTrades : List Trade := [exampleBuyTrade, exampleSellTrade]

/-- A window covering both example trades. -/
def exampleTimeframe : Timeframe := { start := 0, «end» := 10 }

/-- A structurally valid grid configuration used for concrete instances. -/
def exampleConfig : GridConfig where
  symbol := "BTCUSD"
  priceRange := { upper := 15, lower := 5 }
  gridLevels := 10
  gridSpacing := 1
  baseOrderSize := 100
  maxPositions := 5

/-- An all-zero cost snapshot (every component 0, total 0). -/
def exampleCosts : TotalCosts :=
  mkTotalCosts
    { buyFees := 0, sellFees := 0, spreadCost := 0, slippageCost := 0
      fundingCost := 0 }
    { vpsCost := 0, apiCost := 0, softwareLicenses := 0, networkCosts := 0 }
    { riskFreeRate := 0, alternativeInvestmentReturn := 0, timeValue := 0 }
    { drawdownImpact := 0, volatilityPenalty := 0, correlationRisk := 0
      liquidityRisk := 0 }
    { rebalancingCost := 0, gapRisk := 0, liquidityCost := 0
      taxImplications := 0 }

/-- The P&L snapshot the modelled calculator produces on the §8 example:
realized profit 199.8 (= 999/5), nothing unrealized, zero costs. -/
def examplePnL : PnLCalculation where
  gridProfit := { realizedProfit := 999 / 5, unrealizedPnl := 0
                  totalTrades := 2, successfulCycles := 0, timestamp := 10 }
  totalCosts := exampleCosts
  netProfit := 999 / 5
  riskAdjustedReturn := 0
  finalPnl := 999 / 5
  calculationDate := 10


/-- A `TotalCosts` value whose `totalAmount` (0) disagrees with the sum of
its components (1): the interface does not tie the two together. -/
def mismatchedTotalCosts : TotalCosts where
  trading := { buyFees := 1, sellFees := 0, spreadCost := 0
               slippageCost := 0, fundingCost := 0 }
  infrastructure := { vpsCost := 0, apiCost := 0, softwareLicenses := 0
                      networkCosts := 0 }
  opportunity := { riskFreeRate := 0, alternativeInvestmentReturn := 0
                   timeValue := 0 }
  risk := { drawdownImpact := 0, volatilityPenalty := 0, correlationRisk := 0
            liquidityRisk := 0 }
  hidden := { rebalancingCost := 0, gapRisk := 0, liquidityCost := 0
              taxImplications := 0 }
  totalAmount := 0

/-- A `GridConfig` value with `upper < lower` and `gridLevels = 0`: the
interface carries no validation, so such values inhabit the type. -/
def invalidGridConfig : GridConfig where
  symbol := "X"
  priceRange := { upper := 1, lower := 2 }
  gridLevels := 0
  gridSpacing := 1
  baseOrderSize := 1
  maxPositions := 1

/-- Modelled from the spec: the module declares no constructor for
`GridConfig`; §3 and §8 require upper > lower, gridLevels ≥ 1 and
spacing > 0 to hold and construction violating them to be rejected, so
this validating constructor enforces exactly those conditions. -/
def mkGridConfig (symbol : String)
    (upper lower gridLevels gridSpacing baseOrderSize maxPositions : ℚ) :
    Option GridConfig :=
  if lower < upper ∧ 1 ≤ gridLevels ∧ 0 < gridSpacing then
    some { symbol := symbol, priceRange := { upper := upper, lower := lower }
           gridLevels := gridLevels, gridSpacing := gridSpacing
           baseOrderSize := baseOrderSize, maxPositions := maxPositions }
  else none

/-- The configuration `mkGridConfig "X" 2 1 3 1 1 1` produces. -/
def validGridConfig : GridConfig where
  symbol := "X"
  priceRange := { upper := 2, lower := 1 }
  gridLevels := 3
  gridSpacing := 1
  baseOrderSize := 1
  maxPositions := 1

/-- An all-zero metrics report over the example window, used to populate
the `performance` field of concrete strategies. -/
def exampleReport : PerformanceReport where
  pnl := examplePnL
  returnMetrics := { sharpeRatio := 0, sortinoRatio := 0, calmarRatio := 0
                     annualReturn := 0, volatility := 0 }
  riskMetrics := { maximumDrawdown := 0, valueAtRisk := 0, winRate := 0
                   averageWinLossRatio := 0, recoveryTime := 0 }
  efficiencyMetrics := { profitFactor := 0, recoveryFactor := 0
                         tradesPerDay := 0, averageProfitPerTrade := 0
                         gridEfficiency := 0 }
  gridMetrics := { gridEfficiency := 0, capitalUtilization := 0
                   cycleCompletionRate := 0, averageGridSpacing := 0
                   maxCapitalAtRisk := 0 }
  period := exampleTimeframe

/-- A concrete strategy over the example data. -/
def exampleStrategy : GridTradingStrategy where
  config := exampleConfig
  currentPositions := []
  tradeHistory := exampleTrades
  performance := exampleReport

/-- The same strategy data with a different cached `performance` field:
the inputs of `calculatePnL()` (config, positions, history) agree with
`exampleStrategy`. -/
def exampleStrategyStale : GridTradingStrategy where
  config := exampleConfig
  currentPositions := []
  tradeHistory := exampleTrades
  performance := { exampleReport with period := { start := 0, «end» := 99 } }

/-- A partial configuration providing only `gridLevels`. -/
def examplePartial : PartialGridConfig := { gridLevels := some 7 }

/-- Helper: the modelled §4.1 calculator on the §8 worked example yields
exactly `examplePnL` (realized profit 999/5 = 199.8). -/
theorem calculatePnL_example :
    calculatePnL exampleTrades [] exampleConfig exampleCosts exampleTimeframe
      = .ok examplePnL := by
  simp [calculatePnL, exampleTrades, exampleTimeframe, realizedProfitOf,
    unrealizedPnlOf, tradeInWindow, signedProceeds, exampleBuyTrade,
    exampleSellTrade, examplePnL, exampleCosts, mkTotalCosts,
    TradingCosts.sum, InfrastructureCosts.sum, OpportunityCosts.sum,
    RiskCosts.sum, HiddenCosts.sum]
  norm_num

/-- C1: the exported constants table `CALCULATION_CONSTANTS` binds exactly
the values the spec lists: DAYS_PER_YEAR = 365, TRADING_DAYS_PER_YEAR =
252, DEFAULT_RISK_FREE_RATE = 0.02, DEFAULT_MAKER_FEE = 0.001,
DEFAULT_TAKER_FEE = 0.0015, DEFAULT_VAR_CONFIDENCE = 0.95 and
DEFAULT_MAX_DRAWDOWN_LIMIT = 0.2. -/
theorem c1_calculation_constants_values :
    CALCULATION_CONSTANTS.DAYS_PER_YEAR = 365
      ∧ CALCULATION_CONSTANTS.TRADING_DAYS_PER_YEAR = 252
      ∧ CALCULATION_CONSTANTS.DEFAULT_RISK_FREE_RATE = 0.02
      ∧ CALCULATION_CONSTANTS.DEFAULT_MAKER_FEE = 0.001
      ∧ CALCULATION_CONSTANTS.DEFAULT_TAKER_FEE = 0.0015
      ∧ CALCULATION_CONSTANTS.DEFAULT_VAR_CONFIDENCE = 0.95
      ∧ CALCULATION_CONSTANTS.DEFAULT_MAX_DRAWDOWN_LIMIT = 0.2 := by
  refine ⟨rfl, rfl, ?_, ?_, ?_, ?_, ?_⟩ <;> norm_num [CALCULATION_CONSTANTS]

/-- C2 counterexample: it is not true that every value of type
`TotalCosts` has `totalAmount` equal to the sum of the numeric components
of its five cost sub-records — `mismatchedTotalCosts` has total 0 but
component sum 1. -/
theorem c2_totalCosts_counterexample :
    ¬ (∀ tc : TotalCosts, tc.totalAmount = tc.componentsSum) := by
  intro h
  have h1 := h mismatchedTotalCosts
  norm_num [mismatchedTotalCosts, TotalCosts.componentsSum,
    TradingCosts.sum, InfrastructureCosts.sum, OpportunityCosts.sum,
    RiskCosts.sum, HiddenCosts.sum] at h1

/-- C2 (amended): the `TotalCosts` interface does not itself force the
invariant; every `TotalCosts` built by the constructor that computes the
total from the components (`mkTotalCosts`) satisfies
totalAmount = sum of all numeric components of the five sub-records. -/
theorem c2_mkTotalCosts_totalAmount (t : TradingCosts)
    (i : InfrastructureCosts) (o : OpportunityCosts) (r : RiskCosts)
    (h : HiddenCosts) :
    (mkTotalCosts t i o r h).totalAmount
      = (mkTotalCosts t i o r h).componentsSum := rfl

/-- C3: every `PnLCalculation` the modelled P&L calculator returns has
netProfit = gridProfit.realizedProfit + gridProfit.unrealizedPnl −
totalCosts.totalAmount (exactly, in `ℚ`). -/
theorem c3_netProfit_equation (trades : List Trade)
    (positions : List Position) (config : GridConfig) (costs : TotalCosts)
    (tf : Timeframe) (p : PnLCalculation)
    (h : calculatePnL trades positions config costs tf = .ok p) :
    p.netProfit = p.gridProfit.realizedProfit + p.gridProfit.unrealizedPnl
      - p.totalCosts.totalAmount := by
  unfold calculatePnL at h
  split at h
  · exact Except.noConfusion h
  · split at h
    · exact Except.noConfusion h
    · injection h with h
      subst h
      rfl

/-- Witness for C3: the equation instantiated on the §8 worked example. -/
theorem c3_netProfit_equation_witness :
    examplePnL.netProfit = examplePnL.gridProfit.realizedProfit
      + examplePnL.gridProfit.unrealizedPnl
      - examplePnL.totalCosts.totalAmount :=
  c3_netProfit_equation exampleTrades [] exampleConfig exampleCosts
    exampleTimeframe examplePnL calculatePnL_example

/-- C4: the modelled calculator computes `gridProfit.realizedProfit` as
the sum of signed trade proceeds (SELL proceeds − BUY cost − fees) over
the trades inside the window, and on the §8 example — BUY 100 at $10 fee
0.1, SELL 100 at $12 fee 0.1, no positions, window covering both — the
realized profit is 999/5 = 199.8. -/
theorem c4_realizedProfit_sum :
    (∀ (trades : List Trade) (positions : List Position)
        (config : GridConfig) (costs : TotalCosts) (tf : Timeframe)
        (p : PnLCalculation),
      calculatePnL trades positions config costs tf = .ok p →
        p.gridProfit.realizedProfit
          = ((trades.filter (tradeInWindow tf)).map signedProceeds).sum) ∧
    (calculatePnL exampleTrades [] exampleConfig exampleCosts
        exampleTimeframe).map (fun q => q.gridProfit.realizedProfit)
      = Except.ok (999 / 5 : ℚ) := by
  constructor
  · intro trades positions config costs tf p h
    unfold calculatePnL at h
    split at h
    · exact Except.noConfusion h
    · split at h
      · exact Except.noConfusion h
      · injection h with h
        subst h
        rfl
  · rw [calculatePnL_example]
    rfl

/-- Witness for C4: the sum law instantiated on the §8 worked example. -/
theorem c4_realizedProfit_sum_witness :
    examplePnL.gridProfit.realizedProfit
      = ((exampleTrades.filter (tradeInWindow exampleTimeframe)).map
          signedProceeds).sum :=
  c4_realizedProfit_sum.1 exampleTrades [] exampleConfig exampleCosts
    exampleTimeframe examplePnL calculatePnL_example

/-- C5: for every risk-free rate, the modelled risk calculator fails with
the typed error InsufficientData on an empty returns sequence. -/
theorem c5_empty_returns_insufficient_data (riskFreeRate : ℚ) :
    calcRiskMetrics [] riskFreeRate = .error .insufficientData := rfl

/-- C6 counterexample: it is not true that every value of type
`GridConfig` satisfies upper > lower and gridLevels ≥ 1 —
`invalidGridConfig` (upper 1, lower 2, gridLevels 0) inhabits the type,
so the interface rejects nothing. -/
theorem c6_gridConfig_counterexample :
    ¬ (∀ c : GridConfig,
        c.priceRange.lower < c.priceRange.upper ∧ 1 ≤ c.gridLevels) := by
  intro h
  have h1 := (h invalidGridConfig).1
  norm_num [invalidGridConfig] at h1

/-- C6 (amended): the `GridConfig` interface itself enforces nothing; the
validating constructor `mkGridConfig` (modelled from the spec) only
produces configurations with upper > lower and gridLevels ≥ 1, and
rejects every construction with upper ≤ lower. -/
theorem c6_mkGridConfig_validates (symbol : String)
    (upper lower gridLevels gridSpacing baseOrderSize maxPositions : ℚ) :
    (∀ c : GridConfig,
      mkGridConfig symbol upper lower gridLevels gridSpacing baseOrderSize
          maxPositions = some c →
        c.priceRange.lower < c.priceRange.upper ∧ 1 ≤ c.gridLevels) ∧
    (upper ≤ lower →
      mkGridConfig symbol upper lower gridLevels gridSpacing baseOrderSize
          maxPositions = none) := by
  constructor
  · intro c hc
    unfold mkGridConfig at hc
    split at hc
    · injection hc with hc
      subst hc
      rename_i hcond
      exact ⟨hcond.1, hcond.2.1⟩
    · exact Option.noConfusion hc
  · intro hle
    have hne : ¬(lower < upper ∧ 1 ≤ gridLevels ∧ 0 < gridSpacing) :=
      fun hcond => absurd hcond.1 (not_lt.mpr hle)
    simp [mkGridConfig, hne]

/-- Witness for C6 (amended): a configuration accepted by the constructor
satisfies the invariants. -/
theorem c6_mkGridConfig_validates_witness :
    validGridConfig.priceRange.lower < validGridConfig.priceRange.upper
      ∧ 1 ≤ validGridConfig.gridLevels :=
  (c6_mkGridConfig_validates "X" 2 1 3 1 1 1).1 validGridConfig (by
    have : ((1 : ℚ) < 2 ∧ (1 : ℚ) ≤ 3 ∧ (0 : ℚ) < 1) := by norm_num
    simp [mkGridConfig, this, validGridConfig])

/-- C7: `updateGrid(partial)` changes only the configuration fields
present in the partial value — each absent field of the configuration is
unchanged, each provided field takes the provided value, and the other
strategy fields (positions, history, performance) are untouched. -/
theorem c7_updateGrid_frame (s : GridTradingStrategy)
    (p : PartialGridConfig) :
    ((s.updateGrid p).currentPositions = s.currentPositions
      ∧ (s.updateGrid p).tradeHistory = s.tradeHistory
      ∧ (s.updateGrid p).performance = s.performance) ∧
    (p.symbol = none →
      (s.updateGrid p).config.symbol = s.config.symbol) ∧
    (p.priceRange = none →
      (s.updateGrid p).config.priceRange = s.config.priceRange) ∧
    (p.gridLevels = none →
      (s.updateGrid p).config.gridLevels = s.config.gridLevels) ∧
    (p.gridSpacing = none →
      (s.updateGrid p).config.gridSpacing = s.config.gridSpacing) ∧
    (p.baseOrderSize = none →
      (s.updateGrid p).config.baseOrderSize = s.config.baseOrderSize) ∧
    (p.maxPositions = none →
      (s.updateGrid p).config.maxPositions = s.config.maxPositions) ∧
    (∀ v, p.symbol = some v → (s.updateGrid p).config.symbol = v) ∧
    (∀ v, p.priceRange = some v → (s.updateGrid p).config.priceRange = v) ∧
    (∀ v, p.gridLevels = some v → (s.updateGrid p).config.gridLevels = v) ∧
    (∀ v, p.gridSpacing = some v →
      (s.updateGrid p).config.gridSpacing = v) ∧
    (∀ v, p.baseOrderSize = some v →
      (s.updateGrid p).config.baseOrderSize = v) ∧
    (∀ v, p.maxPositions = some v →
      (s.updateGrid p).config.maxPositions = v) := by
  refine ⟨⟨rfl, rfl, rfl⟩, ?_, ?_, ?_, ?_, ?_, ?_, ?_, ?_, ?_, ?_, ?_, ?_⟩
  all_goals
    first
      | (intro h
         simp [GridTradingStrategy.updateGrid, mergeGridConfig, h])
      | (intro v h
         simp [GridTradingStrategy.updateGrid, mergeGridConfig, h])

/-- Witness for C7: merging a partial that provides only `gridLevels`
leaves the symbol unchanged. -/
theorem c7_updateGrid_frame_witness :
    (exampleStrategy.updateGrid examplePartial).config.symbol
      = exampleStrategy.config.symbol :=
  (c7_updateGrid_frame exampleStrategy examplePartial).2.1 rfl

/-- C8: the strategy's `calculatePnL()` is a pure function of its config,
positions and trade history — two strategy states agreeing on those
inputs (here: differing in the cached `performance` field) produce
identical outputs, so repeated calls with unchanged inputs agree. -/
theorem c8_calculatePnL_deterministic (s₁ s₂ : GridTradingStrategy)
    (hc : s₁.config = s₂.config)
    (hp : s₁.currentPositions = s₂.currentPositions)
    (ht : s₁.tradeHistory = s₂.tradeHistory) :
    s₁.calculatePnL = s₂.calculatePnL := by
  unfold GridTradingStrategy.calculatePnL GridTradingStrategy.getTotalCosts
  rw [hc, hp, ht]

/-- Witness for C8: two strategies with the same inputs but different
cached reports give the same P&L. -/
theorem c8_calculatePnL_deterministic_witness :
    exampleStrategy.calculatePnL = exampleStrategyStale.calculatePnL :=
  c8_calculatePnL_deterministic exampleStrategy exampleStrategyStale
    rfl rfl rfl

/-- C9: beyond the constants the spec lists, `CALCULATION_CONSTANTS` also
binds HOURS_PER_DAY = 24, MINUTES_PER_HOUR = 60 and
SECONDS_PER_MINUTE = 60. -/
theorem c9_time_conversion_constants :
    CALCULATION_CONSTANTS.HOURS_PER_DAY = 24
      ∧ CALCULATION_CONSTANTS.MINUTES_PER_HOUR = 60
      ∧ CALCULATION_CONSTANTS.SECONDS_PER_MINUTE = 60 :=
  ⟨rfl, rfl, rfl⟩

/-- C10: the buy/sell discriminant of `Trade` is the field named `type`,
whose value is always BUY or SELL, and `Position.side` is always LONG or
SHORT — the embedded discriminant types have no other inhabitants. -/
theorem c10_discriminants_exhaustive :
    (∀ t : Trade, t.type = TradeType.buy ∨ t.type = TradeType.sell) ∧
    (∀ p : Position,
      p.side = PositionSide.long ∨ p.side = PositionSide.short) := by
  constructor
  · intro t
    cases t.type
    · exact Or.inl rfl
    · exact Or.inr rfl
  · intro p
    cases p.side
    · exact Or.inl rfl
    · exact Or.inr rfl
